import Mathlib

/-
  Verification of the webapp/views.py handlers of the car_rent repository.

  The data store is modelled as a list of car records in stored order; each
  ORM primitive is a state-passing function that also logs the database
  operations (read or write) it performs. The pagination semantics follow
  the framework paginator used by the catalog view: page numbers are
  validated against the page count, a number beyond the range falls back to
  the last page, a non-numeric or missing value to the first page.
-/

/-- A car record: an identifying key, a creation timestamp standing for
recency (larger means more recent), and the boolean flag marking the car
featured on the homepage. -/
structure Car where
  id : Nat
  created : Nat
  is_main : Bool
  deriving DecidableEq, Repr

/-- A rendered HTTP response, abstracted to what the handlers observe:
rendering a template, re-rendering a form template with errors, or
redirecting to a target. -/
inductive Response where
  | render (template : String)
  | renderWithErrors (template : String)
  | redirect (target : String)
  deriving DecidableEq, Repr

def loginUrl : String := "login"

def contactTemplate : String := "webapp/contact.html"

def logoutTemplate : String := "webapp/logout.html"

def loginTemplate : String := "webapp/login.html"

def registerTemplate : String := "webapp/register.html"

def registerDoneUrl : String := "webapp:register_done"

def loginRedirectUrl : String := "LOGIN_REDIRECT_URL"

def aboutTemplate : String := "webapp/about.html"

def servicesTemplate : String := "webapp/services.html"

/-- A database operation issued by a handler against the car store. -/
inductive DbOp where
  | read
  | write
  deriving DecidableEq, Repr

/-- A database action: given the stored car collection, it returns a value,
the collection afterwards, and the log of operations it issued. -/
def DbM (α : Type) : Type := List Car → α × List Car × List DbOp

/-- The query Car.objects.all(): one read returning the whole collection.
The Car model (webapp/models.py) is not among the sources; per the spec the
records come back "in default (unspecified) order", modelled as the stored
order of the collection. -/
def getAllCars : DbM (List Car) := fun db => (db, db, [DbOp.read])

/-- The query Car.objects.filter(is_main=True).first(): one read returning
the first stored record whose is_main flag is set, if any. -/
def getMainCar : DbM (Option Car) :=
  fun db => ((db.filter fun c => c.is_main).head?, db, [DbOp.read])

/-- The context dictionary assembled by the index view. -/
structure IndexContext where
  cars : List Car
  main_car : Option Car
  deriving DecidableEq, Repr

/-- The index handler: fetch the cars (keeping the first 3), fetch the main
car, and assemble the template context. -/
def indexM : DbM IndexContext := fun db =>
  match getAllCars db with
  | (allCars, db1, ops1) =>
    match getMainCar db1 with
    | (mc, db2, ops2) =>
      ({ cars := allCars.take 3, main_car := mc }, db2, ops1 ++ ops2)

/-- The context the index view hands to the template. -/
def index (db : List Car) : IndexContext := (indexM db).1

/-- The paginator page count for a collection of the given size: the
ceiling of count / perPage, and at least one page even when the collection
is empty. -/
def numPages (count perPage : Nat) : Nat :=
  max 1 ((count + perPage - 1) / perPage)

/-- The page query parameter as the catalog view receives it: an integer,
a non-numeric value, or no parameter at all. -/
inductive PageParam where
  | num (n : Int)
  | nonNumeric
  | absent
  deriving DecidableEq, Repr

/-- Page-number validation of the paginator as used through get_page: a
non-numeric or missing value yields page 1, a number outside the valid
range yields the last page, and a valid number is kept. -/
def getPageNumber (count perPage : Nat) : PageParam → Nat
  | PageParam.num n =>
      if n < 1 then numPages count perPage
      else if (numPages count perPage : Int) < n then numPages count perPage
      else n.toNat
  | PageParam.nonNumeric => 1
  | PageParam.absent => 1

/-- The slice of the collection shown on a given (1-indexed) page. -/
def pageItems (db : List Car) (perPage page : Nat) : List Car :=
  (db.drop ((page - 1) * perPage)).take perPage

/-- A paginator page: its number and the records it carries. -/
structure Page where
  number : Nat
  object_list : List Car
  deriving DecidableEq, Repr

/-- get_page of the paginator: validate the page number, then return that
page of the collection. -/
def getPage (db : List Car) (perPage : Nat) (p : PageParam) : Page :=
  { number := getPageNumber db.length perPage p
  , object_list := pageItems db perPage (getPageNumber db.length perPage p) }

/-- The context dictionary assembled by the catalog view: object_list and
the cars entry (the context_object_name) hold the full queryset, page_objs
holds the selected page. -/
structure CarListContext where
  cars : List Car
  object_list : List Car
  page_objs : Page
  deriving DecidableEq, Repr

/-- Constructing Paginator(queryset, 4) and calling get_page: the paginator
counts the queryset, issuing one read. -/
def paginateCars (qs : List Car) (p : PageParam) : DbM Page :=
  fun db => (getPage qs 4 p, db, [DbOp.read])

/-- The catalog handler: get_queryset fetches all cars, get_context_data
paginates them at page size 4 and stores the page under page_objs while the
cars entry keeps the full queryset. -/
def carListM (p : PageParam) : DbM CarListContext := fun db =>
  match getAllCars db with
  | (qs, db1, ops1) =>
    match paginateCars qs p db1 with
    | (pg, db2, ops2) =>
      ({ cars := qs, object_list := qs, page_objs := pg }, db2, ops1 ++ ops2)

/-- The context the catalog view hands to the template. -/
def carListContext (db : List Car) (p : PageParam) : CarListContext :=
  (carListM p db).1

/-- The about page handler: template rendering only, no database access. -/
def aboutM : DbM Response := fun db => (Response.render aboutTemplate, db, [])

/-- The services page handler: template rendering only, no database
access. -/
def servicesM : DbM Response :=
  fun db => (Response.render servicesTemplate, db, [])

/-- The car detail handler: one read fetching the record with the given
key. -/
def carDetailM (pk : Nat) : DbM (Option Car) :=
  fun db => (db.find? fun c => c.id == pk, db, [DbOp.read])

/-- The LoginRequiredMixin guard: an unauthenticated request is redirected
to the login page, an authenticated one reaches the wrapped view. -/
def loginRequired (authenticated : Bool) (view : Response) : Response :=
  if authenticated then view else Response.redirect loginUrl

/-- The contact view: LoginRequiredMixin around rendering the contact
template. -/
def contactView (authenticated : Bool) : Response :=
  loginRequired authenticated (Response.render contactTemplate)

/-- The class attribute set by CRLoginView. -/
def redirect_authenticated_user : Bool := true

/-- The login view: with redirect_authenticated_user set, an authenticated
request is redirected away; otherwise the login template is rendered. -/
def crLoginView (authenticated : Bool) : Response :=
  if redirect_authenticated_user && authenticated then
    Response.redirect loginRedirectUrl
  else Response.render loginTemplate

/-- The logout view: LoginRequiredMixin around rendering the logout
template. -/
def crLogoutView (authenticated : Bool) : Response :=
  loginRequired authenticated (Response.render logoutTemplate)

/-- A user account record. -/
structure User where
  username : String
  deriving DecidableEq, Repr

/-- The data the registration form receives. -/
structure RegisterFormData where
  username : String
  password1 : String
  password2 : String
  deriving DecidableEq, Repr

/-- Modelled from the spec: RegisterUserForm lives in webapp/forms.py, which
is not among the sources; the spec describes its validation only as "e.g.,
mismatched passwords, per the external form's validation". The form is
valid when the two password fields agree and a username was supplied. -/
def registerFormValid (f : RegisterFormData) : Bool :=
  f.password1 == f.password2 && f.username != ""

/-- The registration view (a CreateView): a valid form saves exactly one
new account and redirects to the register_done page; an invalid form
re-renders the registration template with errors and saves nothing. -/
def registerUserView (f : RegisterFormData) (users : List User) :
    Response × List User :=
  if registerFormValid f then
    (Response.redirect registerDoneUrl, users ++ [{ username := f.username }])
  else
    (Response.renderWithErrors registerTemplate, users)

/-- Formalisation of the wording of the homepage-recency claim: every car
selected into the homepage context is at least as recent as every car left
out of it. Stated from the claim, to be compared with what index does. -/
def specMostRecentSelection (db : List Car) : Prop :=
  ∀ c ∈ (index db).cars, ∀ d ∈ db, d ∉ (index db).cars → d.created ≤ c.created

instance (db : List Car) : Decidable (specMostRecentSelection db) :=
  inferInstanceAs (Decidable (∀ c ∈ (index db).cars, ∀ d ∈ db,
    d ∉ (index db).cars → d.created ≤ c.created))

/-- A five-car collection used to instantiate pagination facts. -/
def cars5 : List Car :=
  [⟨1, 1, false⟩, ⟨2, 2, false⟩, ⟨3, 3, false⟩, ⟨4, 4, false⟩, ⟨5, 5, false⟩]

/-- A six-car collection used to instantiate pagination facts. -/
def cars6 : List Car :=
  [⟨1, 1, false⟩, ⟨2, 2, false⟩, ⟨3, 3, false⟩, ⟨4, 4, false⟩,
   ⟨5, 5, false⟩, ⟨6, 6, false⟩]

/-- A collection whose most recent car is stored last, after three older
cars. -/
def carsLate : List Car :=
  [⟨1, 1, false⟩, ⟨2, 2, false⟩, ⟨3, 3, false⟩, ⟨4, 10, false⟩]

def aliceName : String := "alice"

def bobName : String := "bob"

def pwA : String := "hunter2"

def pwB : String := "hunter3"

/-- A registration submission the form accepts. -/
def goodForm : RegisterFormData :=
  { username := aliceName, password1 := pwA, password2 := pwA }

/-- A registration submission with mismatched passwords. -/
def badForm : RegisterFormData :=
  { username := bobName, password1 := pwA, password2 := pwB }

theorem head_filter_eq_find (p : Car → Bool) (l : List Car) :
    (l.filter p).head? = l.find? p := by
  induction l with
  | nil => rfl
  | cons a t ih =>
    by_cases h : p a
    · simp [List.filter_cons, h]
    · simp [List.filter_cons, h, ih]

/-- Claim C1: the homepage context built by index holds at most 3 cars; its
main_car entry is the first stored record whose is_main flag is set, and it
is absent exactly when no record has the flag set; the empty collection is
a valid input producing an empty cars list and an absent main_car. -/
theorem index_context_spec (db : List Car) :
    (index db).cars.length ≤ 3 ∧
    (index db).main_car = db.find? (fun c => c.is_main) ∧
    ((index db).main_car = none ↔ ∀ c ∈ db, c.is_main = false) ∧
    (index []).cars = [] ∧ (index []).main_car = none := by
  have hm : (index db).main_car = db.find? (fun c => c.is_main) :=
    head_filter_eq_find (fun c => c.is_main) db
  refine ⟨?_, hm, ?_, rfl, rfl⟩
  · show (db.take 3).length ≤ 3
    simp [List.length_take]
  · rw [hm, List.find?_eq_none]
    simp

/-- Claim C2: for the catalog paginated at size 4, a page number beyond the
last page yields the last valid page, a non-numeric page value yields the
first page, and every page parameter yields a page number inside the valid
range, so no parameter value makes the request fail. -/
theorem carList_page_fallback (db : List Car) (n : Int) (p : PageParam)
    (h : (numPages db.length 4 : Int) < n) :
    (getPage db 4 (PageParam.num n)).number = numPages db.length 4 ∧
    (getPage db 4 PageParam.nonNumeric).number = 1 ∧
    1 ≤ (getPage db 4 p).number ∧
    (getPage db 4 p).number ≤ numPages db.length 4 := by
  have h1 : 1 ≤ numPages db.length 4 := Nat.le_max_left 1 _
  have hrange : ∀ q : PageParam, 1 ≤ getPageNumber db.length 4 q ∧
      getPageNumber db.length 4 q ≤ numPages db.length 4 := by
    intro q
    cases q with
    | num m =>
      simp only [getPageNumber]
      split
      · exact ⟨h1, Nat.le_refl _⟩
      · split
        · exact ⟨h1, Nat.le_refl _⟩
        · constructor <;> omega
    | nonNumeric => exact ⟨Nat.le_refl 1, h1⟩
    | absent => exact ⟨Nat.le_refl 1, h1⟩
  refine ⟨?_, rfl, (hrange p).1, (hrange p).2⟩
  show getPageNumber db.length 4 (PageParam.num n) = numPages db.length 4
  have hn1 : ¬ n < 1 := by omega
  simp only [getPageNumber]
  rw [if_neg hn1, if_pos h]

/-- Witness for carList_page_fallback: five cars paginate into two pages;
page 7 is out of range and falls back to page 2, a non-numeric value gives
page 1, and page parameter 0 still lands inside the valid range. -/
theorem carList_page_fallback_w :
    (numPages cars5.length 4 : Int) < 7 ∧
    ((getPage cars5 4 (PageParam.num 7)).number = numPages cars5.length 4 ∧
     (getPage cars5 4 PageParam.nonNumeric).number = 1 ∧
     1 ≤ (getPage cars5 4 (PageParam.num 0)).number ∧
     (getPage cars5 4 (PageParam.num 0)).number ≤ numPages cars5.length 4) :=
  ⟨by decide, carList_page_fallback cars5 7 (PageParam.num 0) (by decide)⟩

/-- Claim C3: the catalog splits the N fetched cars into pages of size 4:
the page count is the ceiling of N / 4 (one page when N = 0), every page
before the last holds exactly 4 cars, and the last page holds between 1 and
4 cars as soon as any car exists. -/
theorem carList_page_sizes (db : List Car) (p : Nat) :
    numPages db.length 4 = max 1 ((db.length + 3) / 4) ∧
    (db.length = 0 → numPages db.length 4 = 1) ∧
    (0 < db.length → numPages db.length 4 = (db.length + 3) / 4) ∧
    (pageItems db 4 p).length = min 4 (db.length - (p - 1) * 4) ∧
    (1 ≤ p → p < numPages db.length 4 → (pageItems db 4 p).length = 4) ∧
    (0 < db.length → 1 ≤ (pageItems db 4 (numPages db.length 4)).length) ∧
    (pageItems db 4 (numPages db.length 4)).length ≤ 4 := by
  have hlen : ∀ q : Nat,
      (pageItems db 4 q).length = min 4 (db.length - (q - 1) * 4) := by
    intro q
    simp [pageItems, List.length_take, List.length_drop]
  have hnp : numPages db.length 4 = max 1 ((db.length + 3) / 4) := rfl
  refine ⟨rfl, ?_, ?_, hlen p, ?_, ?_, ?_⟩ <;> simp only [hnp, hlen] <;> omega

/-- Witness for carList_page_sizes: six cars make two pages, the first full
with 4 cars and the last with the remaining 2. -/
theorem carList_page_sizes_w :
    (pageItems cars6 4 1).length = 4 ∧
    (pageItems cars6 4 2).length = 2 ∧
    numPages cars6.length 4 = 2 :=
  ⟨(carList_page_sizes cars6 1).2.2.2.2.1 (by decide) (by decide),
   by decide, by decide⟩

/-- Claim C4 counterexample: the homepage selection keeps the first 3
stored records, which are not the 3 most recent ones when the newest car is
stored last: in carsLate the car created at time 10 is newer than every
selected car yet is left out. -/
theorem index_recency_counterexample :
    ¬ specMostRecentSelection carsLate := by
  decide

/-- Claim C4 amended: the up-to-3 cars placed in the index context are the
first records of the car collection in its stored (default, unspecified)
order, not necessarily the most recent ones: the selection equals take 3 of
the collection and has length min 3 N. -/
theorem index_cars_stored_order (db : List Car) :
    (index db).cars = db.take 3 ∧
    (index db).cars.length = min 3 db.length := by
  refine ⟨rfl, ?_⟩
  show (db.take 3).length = min 3 db.length
  simp [List.length_take]

/-- Claim C5: an unauthenticated request to the contact page is redirected
to the login page, so the contact template is not rendered for it; an
authenticated request renders the contact template. -/
theorem contactView_requires_login :
    contactView false = Response.redirect loginUrl ∧
    contactView true = Response.render contactTemplate :=
  ⟨rfl, rfl⟩

/-- Claim C6: a valid registration submission creates exactly one new
account and redirects to the register_done page; an invalid one re-renders
the registration template with errors and leaves the accounts unchanged. -/
theorem registerUserView_spec (f : RegisterFormData) (users : List User) :
    (registerFormValid f = true →
        (registerUserView f users).1 = Response.redirect registerDoneUrl ∧
        (registerUserView f users).2 = users ++ [{ username := f.username }] ∧
        (registerUserView f users).2.length = users.length + 1) ∧
    (registerFormValid f = false →
        (registerUserView f users).1 =
          Response.renderWithErrors registerTemplate ∧
        (registerUserView f users).2 = users) := by
  constructor
  · intro hv
    simp [registerUserView, hv]
  · intro hv
    simp [registerUserView, hv]

/-- Witness for registerUserView_spec: the accepted submission creates the
one new account and redirects, the mismatched-password submission
re-renders with errors and creates none. -/
theorem registerUserView_spec_w :
    ((registerUserView goodForm []).1 = Response.redirect registerDoneUrl ∧
     (registerUserView goodForm []).2 =
       [] ++ [{ username := goodForm.username }] ∧
     (registerUserView goodForm []).2.length = ([] : List User).length + 1) ∧
    ((registerUserView badForm []).1 =
       Response.renderWithErrors registerTemplate ∧
     (registerUserView badForm []).2 = ([] : List User)) :=
  ⟨(registerUserView_spec goodForm []).1 (by decide),
   (registerUserView_spec badForm []).2 (by decide)⟩

/-- Claim C7: the login view sets redirect_authenticated_user, and a
request by an already-authenticated user is redirected away from the login
page instead of being shown the login form; an unauthenticated user is
shown the login template. -/
theorem crLoginView_redirects_authenticated :
    redirect_authenticated_user = true ∧
    crLoginView true = Response.redirect loginRedirectUrl ∧
    crLoginView false = Response.render loginTemplate :=
  ⟨rfl, rfl, rfl⟩

/-- Claim C8: every handler is read-only on the car store: the homepage and
catalog handlers issue exactly two read operations, the detail handler one,
the static handlers none, each returns the car collection unchanged, and no
handler logs a write. -/
theorem handlers_read_only (db : List Car) (p : PageParam) (pk : Nat) :
    (indexM db).2.1 = db ∧ (indexM db).2.2 = [DbOp.read, DbOp.read] ∧
    (carListM p db).2.1 = db ∧
    (carListM p db).2.2 = [DbOp.read, DbOp.read] ∧
    (aboutM db).2.1 = db ∧ (aboutM db).2.2 = [] ∧
    (servicesM db).2.1 = db ∧ (servicesM db).2.2 = [] ∧
    (carDetailM pk db).2.1 = db ∧ (carDetailM pk db).2.2 = [DbOp.read] :=
  ⟨rfl, rfl, rfl, rfl, rfl, rfl, rfl, rfl, rfl, rfl⟩

/-- Claim C9: the logout view carries the login-required guard: an
unauthenticated request is redirected to the login page instead of the
logout page, and only an authenticated request reaches the logout
rendering. -/
theorem crLogoutView_requires_login :
    crLogoutView false = Response.redirect loginUrl ∧
    crLogoutView true = Response.render logoutTemplate :=
  ⟨rfl, rfl⟩

/-- Claim C10: pagination does not restrict the main context variable: the
cars entry of the catalog context is the full car collection for every page
parameter, as is object_list, while the separate page_objs entry holds the
at-most-4-record slice of the selected page. -/
theorem carList_context_full_list (db : List Car) (p : PageParam) :
    (carListContext db p).cars = db ∧
    (carListContext db p).object_list = db ∧
    (carListContext db p).page_objs.object_list =
      pageItems db 4 ((carListContext db p).page_objs.number) ∧
    (carListContext db p).page_objs.object_list.length ≤ 4 := by
  refine ⟨rfl, rfl, rfl, ?_⟩
  show (pageItems db 4 (getPageNumber db.length 4 p)).length ≤ 4
  simp only [pageItems, List.length_take, List.length_drop]
  omega
